import Mathlib

/-!
Shallow embedding of `src/backend/app/main.py` of the AI-Dashboard repository
(an AI shipment-analysis API): intent classification, rule-based answers,
daily trend aggregation, forecasting control flow, the LLM fallback and the
upload/ask orchestration, together with proofs of the spec's claims.

Numeric columns (pandas float64) are idealised as ℚ; timestamps are pairs of
a calendar day (ℤ) and a time of day (ℕ); a missing value (NaN/NaT) is
`Option.none`.  The external collaborators (Prophet model, LLM agent, chart
sink) are abstracted as parameters, as the spec directs.
-/

namespace AIDash

/-! ### Python string primitives -/

/-- `hasPrefixL n h` : the char list `n` is an initial segment of `h`. -/
def hasPrefixL : List Char → List Char → Bool
  | [], _ => true
  | _ :: _, [] => false
  | a :: as, b :: bs => a = b && hasPrefixL as bs

/-- `hasSubL n h` : the char list `n` occurs contiguously inside `h`
(Python's `n in h` on strings). -/
def hasSubL (n : List Char) : List Char → Bool
  | [] => n.isEmpty
  | b :: t => hasPrefixL n (b :: t) || hasSubL n t

/-- Python's `s.lower()` (ASCII-adequate), as a char list. -/
def pyLower (s : String) : List Char := s.toList.map Char.toLower

/-- Python's `k in q` for a keyword `k` against an already-lowercased
question `q`. -/
def kwIn (k : String) (q : List Char) : Bool := hasSubL k.toList q

/-! ### Float formatting (`:,.2f`, `:.2f`, `:.1f`) idealised over ℚ -/

/-- Floor of a rational as an integer. -/
def qfloor (q : ℚ) : ℤ := Int.fdiv q.num q.den

/-- Round a rational to the nearest integer, ties to even (the rounding used
by Python's fixed-point float formatting, idealised over ℚ). -/
def roundHE (q : ℚ) : ℤ :=
  let f := qfloor q
  let r := q - (f : ℚ)
  if r < 1/2 then f
  else if 1/2 < r then f + 1
  else if f % 2 = 0 then f else f + 1

/-- Insert a `','` after every group of three chars of a reversed digit
list (helper for thousands grouping). -/
def groupRev : List Char → List Char
  | a :: b :: c :: d :: rest => a :: b :: c :: ',' :: groupRev (d :: rest)
  | l => l

/-- Decimal digits of `n` with thousands separators. -/
def commaGroup (n : ℕ) : String :=
  String.mk ((groupRev (toString n).toList.reverse).reverse)

/-- Zero-padded two-digit rendering of `f < 100`. -/
def twoDigits (f : ℕ) : String :=
  (if f < 10 then "0" else "") ++ toString f

/-- Python `f"{q:,.2f}"`: two decimals, half-even, thousands separators. -/
def formatComma2 (q : ℚ) : String :=
  let n := roundHE (q * 100)
  let a := n.natAbs
  (if n < 0 then "-" else "") ++ commaGroup (a / 100) ++ "." ++ twoDigits (a % 100)

/-- Python `f"{q:.2f}"`: two decimals, half-even, no grouping. -/
def format2 (q : ℚ) : String :=
  let n := roundHE (q * 100)
  let a := n.natAbs
  (if n < 0 then "-" else "") ++ toString (a / 100) ++ "." ++ twoDigits (a % 100)

/-- Python `f"{q:.1f}"`: one decimal, half-even. -/
def format1 (q : ℚ) : String :=
  let n := roundHE (q * 10)
  let a := n.natAbs
  (if n < 0 then "-" else "") ++ toString (a / 10) ++ "." ++ toString (a % 10)

/-! ### Data model -/

/-- A pandas timestamp: calendar day (days since an epoch, ℤ) and time of
day.  `resample("D")` buckets a timestamp by its `day` component. -/
structure Ts where
  day : ℤ
  tod : ℕ
deriving DecidableEq, Repr

/-- One row of the validated shipment dataset.  Each field is `Option`al
because pandas coercion (`errors="coerce"`) turns unparseable cells into
NaN/NaT; ingestion then drops rows with null GrossQuantity, ShipmentID or
ExitTime. -/
structure Row where
  grossQuantity : Option ℚ
  flowRate : Option ℚ
  shipmentCompartmentID : Option ℤ
  baseProductID : Option ℤ
  baseProductCode : Option String
  shipmentID : Option ℤ
  shipmentCode : Option String
  exitTime : Option Ts
  bayCode : Option String
  scheduledDate : Option Ts
  createdTime : Option Ts
deriving DecidableEq, Repr

/-- Column lookup for the numeric columns (`df[col]` restricted to the two
numeric columns the code reads). -/
def Row.getNum (r : Row) (c : String) : Option ℚ :=
  if c = "GrossQuantity" then r.grossQuantity
  else if c = "FlowRate" then r.flowRate
  else none

/-- Column lookup for the datetime columns. -/
def Row.getTime (r : Row) (c : String) : Option Ts :=
  if c = "ExitTime" then r.exitTime
  else if c = "ScheduledDate" then r.scheduledDate
  else if c = "CreatedTime" then r.createdTime
  else none

/-- Python's rendering of a possibly-missing string cell inside an
f-string (`NaN` prints as `"nan"`). -/
def showOptS : Option String → String
  | some s => s
  | none => "nan"

/-- The `{text, imageUrl}` dictionary every handler returns
(`AskResponse`). -/
structure AnalysisResult where
  text : String
  imageUrl : Option String
deriving DecidableEq, Repr

/-! ### Intent classifier (`classify_query_intent`, main.py lines 97-103) -/

/-- `classify_query_intent(query)`: lowercase, then ordered keyword tiers. -/
def classify_query_intent (query : String) : String :=
  let q := pyLower query
  if [("forecast" : String), "predict", "projection", "next "].any (fun k => kwIn k q) then
    "forecast"
  else if [("trend" : String), "over time", "time series", "by day", "by month",
      "chart", "plot", "graph"].any (fun k => kwIn k q) then
    "trend"
  else "analysis"

/-! ### Rule engine (`answer_with_rules`, main.py lines 106-120)

`df["FlowRate"].idxmax()` on a column with no valid (non-NaN) entry raises a
`ValueError` in pandas; the embedding returns `Except.error` there, every
other path returns `Except.ok`. -/

/-- `df["GrossQuantity"].sum()`: pandas sums the non-null entries (0.0 on an
all-null or empty column). -/
def sumGross (df : List Row) : ℚ :=
  (df.filterMap Row.grossQuantity).sum

/-- `df["ShipmentID"].nunique()`: distinct non-null values. -/
def nuniqueShipment (df : List Row) : ℕ :=
  (df.filterMap Row.shipmentID).dedup.length

/-- Helper for `df["FlowRate"].idxmax()`: scans rows from position `i`,
returning the position and row of the first occurrence of the maximum
non-null FlowRate (pandas `idxmax` skips NaN and keeps the first maximum). -/
def idxmaxFlowAux : ℕ → List Row → Option (ℕ × Row)
  | _, [] => none
  | i, r :: rs =>
    match r.flowRate with
    | none => idxmaxFlowAux (i + 1) rs
    | some v =>
      match idxmaxFlowAux (i + 1) rs with
      | none => some (i, r)
      | some (j, r') => if r'.flowRate.getD 0 > v then some (j, r') else some (i, r)

/-- `df["FlowRate"].idxmax()` followed by `df.loc[idx]`. -/
def idxmaxFlow (df : List Row) : Option (ℕ × Row) := idxmaxFlowAux 0 df

/-- `answer_with_rules(df, query)`.  `Except.error` models an uncaught
pandas exception escaping the handler. -/
def answer_with_rules (df : List Row) (query : String) : Except String AnalysisResult :=
  let q := pyLower query
  if kwIn "total" q && kwIn "quantity" q then
    .ok ⟨"Total GrossQuantity: " ++ formatComma2 (sumGross df), none⟩
  else if kwIn "highest" q && (kwIn "flow" q || kwIn "flowrate" q) then
    match idxmaxFlow df with
    | none => .error "ValueError: attempt to get argmax of an all-NA series"
    | some (_, row) =>
      .ok ⟨"Highest FlowRate " ++ format2 (row.flowRate.getD 0) ++ " at Bay " ++
        showOptS row.bayCode ++ " for Shipment " ++ showOptS row.shipmentCode ++ ".", none⟩
  else if kwIn "count" q && (kwIn "shipments" q || kwIn "shipment" q) then
    .ok ⟨"Unique shipments: " ++ toString (nuniqueShipment df), none⟩
  else
    .ok ⟨"I could not answer with built-in rules. Trying AI analysis...", none⟩

/-! ### Fallback responder (`ai_dataframe_answer`, main.py lines 123-138)

The external LLM agent is abstracted as an `Except String String` outcome
(`.ok` = the agent's textual answer, already covering both dict shapes the
source inspects; `.error` = an exception raised during the agent call). -/

/-- `ai_dataframe_answer(df, query)` with the OpenAI-key configuration and
the agent outcome as parameters. -/
def ai_dataframe_answer (hasKey : Bool) (agent : Except String String)
    (df : List Row) (query : String) : Except String AnalysisResult :=
  if !hasKey then answer_with_rules df query
  else
    match agent with
    | .ok out => .ok ⟨out.take 4000, none⟩
    | .error e =>
      -- source line 138: `{"text": f"AI analysis failed: {e}. Falling back
      -- to rules.", **answer_with_rules(df, query)}` — in a Python dict
      -- display the later duplicate key wins, so the rules dict's "text"
      -- overwrites the failure message and the merged dict equals the
      -- rules dict.
      let _fail := "AI analysis failed: " ++ e ++ ". Falling back to rules."
      match answer_with_rules df query with
      | .error ex => .error ex
      | .ok r => .ok ⟨r.text, r.imageUrl⟩

/-! ### Trend analyzer (`trend_chart`, main.py lines 141-158) -/

/-- `df[[date_col, value_col]].dropna()`: the (timestamp, value) pairs of
the rows where both cells are non-null, in dataset order. -/
def validPairs (df : List Row) (date_col value_col : String) : List (Ts × ℚ) :=
  df.filterMap (fun r =>
    match r.getTime date_col, r.getNum value_col with
    | some t, some v => some (t, v)
    | _, _ => none)

/-- Sum of the values of the pairs falling on calendar day `d`. -/
def daySum (ps : List (Ts × ℚ)) (d : ℤ) : ℚ :=
  (ps.filterMap (fun p => if p.1.day = d then some p.2 else none)).sum

/-- `set_index(date_col).sort_index().resample("D").sum()`: pandas daily
resampling produces one bin per calendar day of the closed range from the
earliest to the latest day present, each bin holding the sum of the values
whose timestamp truncates to that day (0 for a day with no rows). -/
def dailyAgg : List (Ts × ℚ) → List (ℤ × ℚ)
  | [] => []
  | p :: ps =>
    let lo := (ps.map (fun x => x.1.day)).foldl min p.1.day
    let hi := (ps.map (fun x => x.1.day)).foldl max p.1.day
    (List.range (hi - lo + 1).toNat).map
      (fun i : ℕ => (lo + (i : ℤ), daySum (p :: ps) (lo + (i : ℤ))))

/-- The first bin of the daily resample: the earliest calendar day among
the valid pairs (0 on an empty list, where it is never used). -/
def loDay : List (Ts × ℚ) → ℤ
  | [] => 0
  | p :: ps => (ps.map (fun x => x.1.day)).foldl min p.1.day

/-- The last bin of the daily resample: the latest calendar day among the
valid pairs (0 on an empty list, where it is never used). -/
def hiDay : List (Ts × ℚ) → ℤ
  | [] => 0
  | p :: ps => (ps.map (fun x => x.1.day)).foldl max p.1.day

/-- `trend_chart(df, value_col, date_col)`.  The chart sink
(`save_plot_return_url`) is abstracted to a deterministic reference built
from its filename hint, since no core logic depends on its shape. -/
def trend_chart (df : List Row) (value_col date_col : String) : AnalysisResult :=
  let agg := dailyAgg (validPairs df date_col value_col)
  if agg.isEmpty then ⟨"No data to plot", none⟩
  else ⟨"Trend of " ++ value_col ++ " over time.", some ("/static/charts/trend_" ++ value_col)⟩

/-! ### Forecaster (`forecast_gross_quantity`, main.py lines 161-193)

The Prophet model together with the figure rendering and saving — the whole
fallible body of the `try` block up to the summary — is abstracted as a
function `run` from the daily series and horizon to either an exception
message or the predicted `(ds, yhat)` rows plus the saved chart's
reference. -/

/-- The outcome of a successful Prophet fit/predict/plot/save. -/
structure ProphetOutput where
  rows : List (ℤ × ℚ)
  url : String

/-- pandas `.mean()` (the empty-list case, NaN in pandas, is irrelevant to
the claims, which assume at least one row on each side). -/
def mean (l : List ℚ) : ℚ := l.sum / l.length

/-- `forecast[forecast["ds"] <= fc_df["ds"].max()]["yhat"].tail(7).mean()`. -/
def lastHistMean (rows : List (ℤ × ℚ)) (hMax : ℤ) : ℚ :=
  let vals := (rows.filter (fun p => p.1 ≤ hMax)).map (fun p => p.2)
  mean (vals.drop (vals.length - 7))

/-- `forecast[forecast["ds"] > fc_df["ds"].max()]["yhat"].head(7).mean()`. -/
def nextFcMean (rows : List (ℤ × ℚ)) (hMax : ℤ) : ℚ :=
  mean (((rows.filter (fun p => hMax < p.1)).map (fun p => p.2)).take 7)

/-- main.py lines 186-190: the textual forecast summary. -/
def summaryText (rows : List (ℤ × ℚ)) (hMax : ℤ) : String :=
  let last_hist := lastHistMean rows hMax
  let next_fc := nextFcMean rows hMax
  let trend := if next_fc > last_hist then "increase" else "decrease"
  let pct := ((next_fc - last_hist) / max |last_hist| (1/1000000)) * 100
  "Forecast suggests a " ++ trend ++ " of approximately " ++ format1 pct ++
    "% over the next period."

/-- `fc_df["ds"].max()`: the largest historical day of the series. -/
def histMaxOf : List (ℤ × ℚ) → ℤ
  | [] => 0
  | p :: ps => (ps.map (fun x => x.1)).foldl max p.1

/-- `forecast_gross_quantity(df, periods)` with the Prophet pipeline
abstracted as `run`. -/
def forecast_gross_quantity (run : List (ℤ × ℚ) → ℤ → Except String ProphetOutput)
    (df : List Row) (periods : ℤ) : AnalysisResult :=
  let series := dailyAgg (validPairs df "ExitTime" "GrossQuantity")
  if series.isEmpty then ⟨"No data available for forecasting", none⟩
  else
    match run series periods with
    | .error e => ⟨"Forecasting failed: " ++ e, none⟩
    | .ok out => ⟨summaryText out.rows (histMaxOf series), some out.url⟩

/-! ### Orchestrator (`upload_csv` and `ask`, main.py lines 222-252) -/

/-- Errors that terminate an `ask` request: `noDataset` models the 400
raised when no dataset is loaded, `internal` models any other uncaught
exception escaping query handling. -/
inductive AskError
  | noDataset
  | internal (msg : String)
deriving DecidableEq, Repr

/-- The request-independent environment of a query: whether an OpenAI key
is configured, and the black-box outcomes of the agent and Prophet. -/
structure Env where
  hasKey : Bool
  agent : Except String String
  run : List (ℤ × ℚ) → ℤ → Except String ProphetOutput

/-- `periods=req.periods or 14`: Python treats both `None` and `0` as
falsy. -/
def coercePeriods : Option ℤ → ℤ
  | none => 14
  | some p => if p = 0 then 14 else p

/-- One `/upload` request acting on the dataset store: CSV parsing and
validation (a black box per the spec) either yields a dataset, which
replaces the store wholesale, or fails, leaving the store unchanged. -/
def uploadStep (st : Option (List Row)) (parsed : Except String (List Row)) : Option (List Row) :=
  match parsed with
  | .ok df => some df
  | .error _ => st

/-- The dataset store after a sequence of `/upload` requests. -/
def runUploads (st : Option (List Row)) (l : List (Except String (List Row))) : Option (List Row) :=
  l.foldl uploadStep st

/-- The `/ask` route (main.py lines 236-252): fail with `noDataset` when
the store is empty, otherwise classify and dispatch, re-dispatching the
analysis path to the fallback when the rules return the sentinel. -/
def ask (env : Env) (st : Option (List Row)) (question : String)
    (periods : Option ℤ) : Except AskError AnalysisResult :=
  match st with
  | none => .error .noDataset
  | some df =>
    let intent := classify_query_intent question
    if intent = "forecast" then
      .ok (forecast_gross_quantity env.run df (coercePeriods periods))
    else if intent = "trend" then
      .ok (trend_chart df "GrossQuantity" "ExitTime")
    else
      match answer_with_rules df question with
      | .error e => .error (.internal e)
      | .ok r =>
        if r.text.startsWith "I could not answer" then
          match ai_dataframe_answer env.hasKey env.agent df question with
          | .error e => .error (.internal e)
          | .ok r2 => .ok ⟨r2.text, r2.imageUrl⟩
        else .ok ⟨r.text, r.imageUrl⟩

/-! ### Spec-side definitions (written from the spec's words, for
comparison against the source-side definitions above) -/

/-- §4.1 / C4, written from the spec's words: first tier forecast keywords,
second tier trend keywords, else analysis. -/
def specClassify (question : String) : String :=
  let q := pyLower question
  if kwIn "forecast" q || kwIn "predict" q || kwIn "projection" q || kwIn "next " q then
    "forecast"
  else if kwIn "trend" q || kwIn "over time" q || kwIn "time series" q || kwIn "by day" q ||
      kwIn "by month" q || kwIn "chart" q || kwIn "plot" q || kwIn "graph" q then
    "trend"
  else "analysis"

/-- C6, written from the spec's words: mean predicted value over the last
7 historical days, or fewer if history is shorter. -/
def spec_lastHistMean (rows : List (ℤ × ℚ)) (hMax : ℤ) : ℚ :=
  let vals := (rows.filter (fun p => p.1 ≤ hMax)).map (fun p => p.2)
  let k := min 7 vals.length
  (vals.drop (vals.length - k)).sum / (k : ℚ)

/-- C6, written from the spec's words: mean predicted value over the first
7 forecast days, or fewer if fewer are forecast. -/
def spec_nextFcMean (rows : List (ℤ × ℚ)) (hMax : ℤ) : ℚ :=
  let vals := (rows.filter (fun p => hMax < p.1)).map (fun p => p.2)
  let k := min 7 vals.length
  (vals.take k).sum / (k : ℚ)

/-! ### Concrete sample data for witnesses and counterexamples -/

/-- A row with only the claim-relevant cells populated. -/
def mkRow (gq fr : Option ℚ) (sid : Option ℤ) (sc bc : Option String)
    (et : Option Ts) : Row :=
  { grossQuantity := gq, flowRate := fr, shipmentCompartmentID := none,
    baseProductID := none, baseProductCode := none, shipmentID := sid,
    shipmentCode := sc, exitTime := et, bayCode := bc, scheduledDate := none,
    createdTime := none }

def exRow1 : Row := mkRow (some 10) (some 5) (some 1) (some "S1") (some "B1") (some ⟨0, 0⟩)

def exRow2 : Row := mkRow (some 20) (some 5) (some 2) (some "S2") (some "B2") (some ⟨2, 3600⟩)

/-- A validated row (non-null GrossQuantity/ShipmentID/ExitTime) whose
FlowRate is null. -/
def exRowNoFlow : Row := mkRow (some 7) none (some 3) (some "S3") (some "B3") (some ⟨1, 0⟩)

/-- A dataset whose valid rows fall on days 0 and 2 only: day 1 is absent. -/
def ex2df : List Row := [exRow1, exRow2]

/-- A stub environment: no OpenAI key, black boxes never consulted. -/
def envStub : Env := ⟨false, Except.error "", fun _ _ => Except.error ""⟩


end AIDash

deriving instance DecidableEq for Except

namespace AIDash

/-! ### Supporting lemmas -/

lemma sumGross_of_all_some (df : List Row) (h : ∀ r ∈ df, r.grossQuantity.isSome) :
    sumGross df = (df.map (fun r => r.grossQuantity.getD 0)).sum := by
  induction df with
  | nil => rfl
  | cons r t ih =>
    have hr := h r (List.mem_cons_self r t)
    obtain ⟨v, hv⟩ := Option.isSome_iff_exists.mp hr
    have ht := ih (fun x hx => h x (List.mem_cons_of_mem r hx))
    simp [sumGross, List.filterMap_cons, hv] at ht ⊢
    exact ht

lemma idxmaxFlowAux_none (l : List Row) : ∀ i, idxmaxFlowAux i l = none → ∀ r ∈ l, r.flowRate = none := by
  induction l with
  | nil => simp
  | cons a t ih =>
    intro i h r hr
    simp only [idxmaxFlowAux] at h
    cases ha : a.flowRate with
    | none =>
      rw [ha] at h
      rcases List.mem_cons.mp hr with rfl | hm
      · exact ha
      · exact ih (i+1) h r hm
    | some v =>
      rw [ha] at h
      cases hrest : idxmaxFlowAux (i+1) t with
      | none => rw [hrest] at h; simp at h
      | some jr =>
        rw [hrest] at h
        obtain ⟨j', r'⟩ := jr
        by_cases hgt : r'.flowRate.getD 0 > v <;> simp [hgt] at h

lemma idxmaxFlowAux_isSome (l : List Row) : ∀ i j r, idxmaxFlowAux i l = some (j, r) → r.flowRate.isSome := by
  induction l with
  | nil => intro i j r h; simp [idxmaxFlowAux] at h
  | cons a t ih =>
    intro i j r h
    simp only [idxmaxFlowAux] at h
    cases ha : a.flowRate with
    | none => rw [ha] at h; exact ih (i+1) j r h
    | some v =>
      rw [ha] at h
      cases hrest : idxmaxFlowAux (i+1) t with
      | none =>
        rw [hrest] at h
        simp at h
        simp [h.2 ▸ ha]
      | some jr =>
        rw [hrest] at h
        obtain ⟨j', r'⟩ := jr
        by_cases hgt : r'.flowRate.getD 0 > v
        · simp [hgt] at h
          obtain ⟨-, hr⟩ := h
          exact hr ▸ ih (i+1) j' r' hrest
        · simp [hgt] at h
          obtain ⟨-, hr⟩ := h
          simp [← hr, ha]

lemma idxmaxFlowAux_get (l : List Row) : ∀ i j r, idxmaxFlowAux i l = some (j, r) →
    ∃ k, k + i = j ∧ l[k]? = some r := by
  induction l with
  | nil => intro i j r h; simp [idxmaxFlowAux] at h
  | cons a t ih =>
    intro i j r h
    simp only [idxmaxFlowAux] at h
    cases ha : a.flowRate with
    | none =>
      rw [ha] at h
      obtain ⟨k, hk, hg⟩ := ih (i+1) j r h
      exact ⟨k + 1, by omega, by simpa using hg⟩
    | some v =>
      rw [ha] at h
      cases hrest : idxmaxFlowAux (i+1) t with
      | none =>
        rw [hrest] at h
        simp at h
        obtain ⟨h1, h2⟩ := h
        exact ⟨0, by omega, by simp [h2]⟩
      | some jr =>
        rw [hrest] at h
        obtain ⟨j', r'⟩ := jr
        by_cases hgt : r'.flowRate.getD 0 > v
        · simp [hgt] at h
          obtain ⟨h1, h2⟩ := h
          obtain ⟨k, hk, hg⟩ := ih (i+1) j' r' hrest
          exact ⟨k + 1, by omega, by simp [h2 ▸ hg]⟩
        · simp [hgt] at h
          obtain ⟨h1, h2⟩ := h
          exact ⟨0, by omega, by simp [h2]⟩

lemma idxmaxFlowAux_max (l : List Row) : ∀ i j r, idxmaxFlowAux i l = some (j, r) →
    ∀ x ∈ l, ∀ v, x.flowRate = some v → v ≤ r.flowRate.getD 0 := by
  induction l with
  | nil => simp
  | cons a t ih =>
    intro i j r h x hx v hv
    simp only [idxmaxFlowAux] at h
    cases ha : a.flowRate with
    | none =>
      rw [ha] at h
      rcases List.mem_cons.mp hx with rfl | hm
      · rw [ha] at hv; exact absurd hv (by simp)
      · exact ih (i+1) j r h x hm v hv
    | some w =>
      rw [ha] at h
      cases hrest : idxmaxFlowAux (i+1) t with
      | none =>
        rw [hrest] at h
        simp at h
        rcases List.mem_cons.mp hx with rfl | hm
        · rw [ha] at hv
          simp at hv
          simp [← h.2, ha, hv]
        · rw [idxmaxFlowAux_none t (i+1) hrest x hm] at hv
          exact absurd hv (by simp)
      | some jr =>
        rw [hrest] at h
        obtain ⟨j', r'⟩ := jr
        by_cases hgt : r'.flowRate.getD 0 > w
        · simp [hgt] at h
          rcases List.mem_cons.mp hx with rfl | hm
          · rw [ha] at hv
            simp at hv
            exact h.2 ▸ (hv ▸ le_of_lt hgt)
          · exact h.2 ▸ ih (i+1) j' r' hrest x hm v hv
        · simp [hgt] at h
          push_neg at hgt
          rcases List.mem_cons.mp hx with rfl | hm
          · rw [ha] at hv
            simp at hv
            simp [← h.2, ha, hv]
          · have := ih (i+1) j' r' hrest x hm v hv
            calc v ≤ r'.flowRate.getD 0 := this
              _ ≤ w := hgt
              _ = r.flowRate.getD 0 := by simp [← h.2, ha]

lemma idxmaxFlowAux_first (l : List Row) : ∀ i j r, idxmaxFlowAux i l = some (j, r) →
    ∀ k, k + i < j → ∀ rk, l[k]? = some rk → ∀ v, rk.flowRate = some v → v < r.flowRate.getD 0 := by
  induction l with
  | nil => simp
  | cons a t ih =>
    intro i j r h k hk rk hrk v hv
    simp only [idxmaxFlowAux] at h
    cases ha : a.flowRate with
    | none =>
      rw [ha] at h
      cases k with
      | zero =>
        simp at hrk
        rw [← hrk, ha] at hv
        exact absurd hv (by simp)
      | succ k' =>
        simp at hrk
        exact ih (i+1) j r h k' (by omega) rk hrk v hv
    | some w =>
      rw [ha] at h
      cases hrest : idxmaxFlowAux (i+1) t with
      | none =>
        rw [hrest] at h
        simp at h
        obtain ⟨h1, h2⟩ := h
        omega
      | some jr =>
        rw [hrest] at h
        obtain ⟨j', r'⟩ := jr
        by_cases hgt : r'.flowRate.getD 0 > w
        · simp [hgt] at h
          cases k with
          | zero =>
            simp at hrk
            rw [← hrk, ha] at hv
            simp at hv
            exact h.2 ▸ (hv ▸ hgt)
          | succ k' =>
            simp at hrk
            exact h.2 ▸ ih (i+1) j' r' hrest k' (by obtain ⟨h1, h2⟩ := h; omega) rk hrk v hv
        · simp [hgt] at h
          obtain ⟨h1, h2⟩ := h
          omega

/-! ### Claim theorems -/

/-- **C4.** `classify_query_intent` is a total function of the question
text that agrees everywhere with the spec's three-tier keyword classifier
(forecast keywords first, then trend keywords, else analysis), and
`"predict the trend"` classifies as forecast. -/
theorem classify_matches_spec :
    (∀ q : String, classify_query_intent q = specClassify q)
    ∧ classify_query_intent "predict the trend" = "forecast" := by
  constructor
  · intro q
    simp [classify_query_intent, specClassify, List.any_cons, List.any_nil, Bool.or_assoc]
  · decide

/-- **C1.** For every dataset (whose rows, per the ingestion invariant, all
carry a GrossQuantity) and every question whose lowercased text contains
both "total" and "quantity", the rule engine returns a text-only result
whose number is the exact sum of GrossQuantity over all rows, formatted
with thousands separators and two decimals — regardless of whatever other
rule patterns the question also matches, i.e. this rule is checked first. -/
theorem total_quantity_rule (df : List Row) (query : String)
    (ht : kwIn "total" (pyLower query) = true)
    (hq : kwIn "quantity" (pyLower query) = true)
    (hv : ∀ r ∈ df, r.grossQuantity.isSome) :
    answer_with_rules df query =
      .ok ⟨"Total GrossQuantity: " ++
        formatComma2 ((df.map (fun r => r.grossQuantity.getD 0)).sum), none⟩ := by
  simp [answer_with_rules, ht, hq, sumGross_of_all_some df hv]

/-- Witness for C1 on a concrete dataset and question (one that also
matches the "highest"+"flow" and "count"+"shipment" patterns, exercising
the rule's priority). -/
theorem total_quantity_rule_witness :
    answer_with_rules ex2df "total quantity, highest flow, count of shipments" =
      .ok ⟨"Total GrossQuantity: " ++
        formatComma2 ((ex2df.map (fun r => r.grossQuantity.getD 0)).sum), none⟩ :=
  total_quantity_rule ex2df "total quantity, highest flow, count of shipments"
    (by decide) (by decide) (by decide)

/-- **C5 (amended).** For every dataset with at least one non-null FlowRate
and every question matching the "highest"+("flow" or "flowrate") pattern
*that does not also match the earlier "total"+"quantity" pattern*, the rule
engine reports the dataset's maximum FlowRate (2 decimals) with that row's
BayCode and ShipmentCode, and the reported row is the first occurrence of
the maximum in dataset order (every earlier row's FlowRate is null or
strictly smaller). -/
theorem highest_flow_rule (df : List Row) (query : String)
    (hh : kwIn "highest" (pyLower query) = true)
    (hf : (kwIn "flow" (pyLower query) || kwIn "flowrate" (pyLower query)) = true)
    (hnt : ¬(kwIn "total" (pyLower query) = true ∧ kwIn "quantity" (pyLower query) = true))
    (hex : ∃ r ∈ df, r.flowRate.isSome) :
    ∃ (j : ℕ) (r : Row) (m : ℚ), df[j]? = some r ∧ r.flowRate = some m ∧
      (∀ x ∈ df, ∀ v, x.flowRate = some v → v ≤ m) ∧
      (∀ k, k < j → ∀ rk, df[k]? = some rk → ∀ v, rk.flowRate = some v → v < m) ∧
      answer_with_rules df query =
        .ok ⟨"Highest FlowRate " ++ format2 m ++ " at Bay " ++ showOptS r.bayCode ++
          " for Shipment " ++ showOptS r.shipmentCode ++ ".", none⟩ := by
  cases hidx : idxmaxFlow df with
  | none =>
    exfalso
    obtain ⟨r, hr, hs⟩ := hex
    rw [idxmaxFlowAux_none df 0 hidx r hr] at hs
    simp at hs
  | some jr =>
    obtain ⟨j, r⟩ := jr
    obtain ⟨m, hm⟩ := Option.isSome_iff_exists.mp (idxmaxFlowAux_isSome df 0 j r hidx)
    obtain ⟨k, hk, hg⟩ := idxmaxFlowAux_get df 0 j r hidx
    have hcond1 : (kwIn "total" (pyLower query) && kwIn "quantity" (pyLower query)) = false := by
      cases h1 : kwIn "total" (pyLower query) <;> cases h2 : kwIn "quantity" (pyLower query) <;>
        simp_all
    refine ⟨j, r, m, ?_, hm, ?_, ?_, ?_⟩
    · rw [← hk]
      simpa using hg
    · intro x hx v hv
      have h := idxmaxFlowAux_max df 0 j r hidx x hx v hv
      rw [hm] at h
      simpa using h
    · intro k' hk' rk hrk v hv
      have h := idxmaxFlowAux_first df 0 j r hidx k' (by omega) rk hrk v hv
      rw [hm] at h
      simpa using h
    · simp [answer_with_rules, hcond1, hh, hf, hidx, hm]

/-- C5 counterexample to the claim as stated: the question
"total quantity at the highest flow" matches the "highest"+"flow" pattern,
yet the rule engine answers with the total-quantity text (the first rule
shadows the second), not with the FlowRate/BayCode/ShipmentCode report the
claim requires (which for `ex2df` would read
"Highest FlowRate 5.00 at Bay B1 for Shipment S1."). -/
theorem highest_flow_rule_shadowed :
    answer_with_rules ex2df "total quantity at the highest flow" =
      .ok ⟨"Total GrossQuantity: 30.00", none⟩ ∧
    ("Total GrossQuantity: 30.00" : String) ≠
      "Highest FlowRate 5.00 at Bay B1 for Shipment S1." := by
  constructor
  · have hsum : sumGross ex2df = 30 := by
      norm_num [sumGross, ex2df, exRow1, exRow2, mkRow, List.filterMap_cons,
        List.sum_cons, List.sum_nil]
    have hfmt : formatComma2 (sumGross ex2df) = "30.00" := by
      rw [hsum]
      norm_num [formatComma2, roundHE, qfloor, commaGroup, groupRev, twoDigits]
      decide
    have h1 : kwIn "total" (pyLower "total quantity at the highest flow") = true := by decide
    have h2 : kwIn "quantity" (pyLower "total quantity at the highest flow") = true := by decide
    simp [answer_with_rules, h1, h2, hfmt]
  · decide

/-- C5 witness: a tied dataset (both rows have FlowRate 5) and a concrete
"highest flow" question. -/
theorem highest_flow_rule_witness :
    ∃ (j : ℕ) (r : Row) (m : ℚ), ex2df[j]? = some r ∧ r.flowRate = some m ∧
      (∀ x ∈ ex2df, ∀ v, x.flowRate = some v → v ≤ m) ∧
      (∀ k, k < j → ∀ rk, ex2df[k]? = some rk → ∀ v, rk.flowRate = some v → v < m) ∧
      answer_with_rules ex2df "which bay has the highest flow" =
        .ok ⟨"Highest FlowRate " ++ format2 m ++ " at Bay " ++ showOptS r.bayCode ++
          " for Shipment " ++ showOptS r.shipmentCode ++ ".", none⟩ :=
  highest_flow_rule ex2df "which bay has the highest flow" (by decide) (by decide)
    (by decide) ⟨exRow1, by decide, by decide⟩

/-- **C7 (code evaluated at the failing input).** With an OpenAI key
configured and the agent call raising "boom" on a question no rule matches,
the fallback responder returns *only* the rule engine's sentinel text: the
"AI analysis failed: boom. Falling back to rules." description built on
line 138 is discarded, because in `{"text": fail, **answer_with_rules(...)}`
the later duplicate "text" key of the rules dict overrides the failure
message — the claim's "failure text with the rule text appended" never
appears. -/
theorem fallback_failure_text_overwritten :
    ai_dataframe_answer true (.error "boom") ex2df "summarize the data" =
      .ok ⟨"I could not answer with built-in rules. Trying AI analysis...", none⟩ := by
  decide

/-- **C8 (code evaluated at the failing input).** On a dataset whose rows
all have null FlowRate, the "highest flow" rule's `idxmax` raises a pandas
`ValueError` which escapes `answer_with_rules` and propagates out of the
`/ask` query handling (an uncaught exception, not an `EmptyDatasetError`
nor a degraded text result). -/
theorem empty_flow_crash :
    answer_with_rules [exRowNoFlow] "highest flow" =
      .error "ValueError: attempt to get argmax of an all-NA series" ∧
    ask envStub (some [exRowNoFlow]) "highest flow" none =
      .error (.internal "ValueError: attempt to get argmax of an all-NA series") := by
  constructor <;> decide


lemma foldl_min_le_init (l : List ℤ) (a : ℤ) : l.foldl min a ≤ a := by
  induction l generalizing a with
  | nil => simp
  | cons b t ih =>
    simp only [List.foldl_cons]
    exact le_trans (ih (min a b)) (min_le_left a b)

lemma foldl_min_le_mem (l : List ℤ) (a x : ℤ) (hx : x ∈ l) : l.foldl min a ≤ x := by
  induction l generalizing a with
  | nil => simp at hx
  | cons b t ih =>
    simp only [List.foldl_cons]
    rcases List.mem_cons.mp hx with rfl | hm
    · exact le_trans (foldl_min_le_init t (min a x)) (min_le_right a x)
    · exact ih (min a b) hm

lemma le_foldl_max_init (l : List ℤ) (a : ℤ) : a ≤ l.foldl max a := by
  induction l generalizing a with
  | nil => simp
  | cons b t ih =>
    simp only [List.foldl_cons]
    exact le_trans (le_max_left a b) (ih (max a b))

lemma le_foldl_max_mem (l : List ℤ) (a x : ℤ) (hx : x ∈ l) : x ≤ l.foldl max a := by
  induction l generalizing a with
  | nil => simp at hx
  | cons b t ih =>
    simp only [List.foldl_cons]
    rcases List.mem_cons.mp hx with rfl | hm
    · exact le_trans (le_max_right a x) (le_foldl_max_init t (max a x))
    · exact ih (max a b) hm

lemma loDay_le_day (ps : List (Ts × ℚ)) (pr : Ts × ℚ) (h : pr ∈ ps) :
    loDay ps ≤ pr.1.day := by
  cases ps with
  | nil => simp at h
  | cons p t =>
    rcases List.mem_cons.mp h with rfl | hm
    · exact foldl_min_le_init _ _
    · exact foldl_min_le_mem _ _ _ (List.mem_map.mpr ⟨pr, hm, rfl⟩)

lemma day_le_hiDay (ps : List (Ts × ℚ)) (pr : Ts × ℚ) (h : pr ∈ ps) :
    pr.1.day ≤ hiDay ps := by
  cases ps with
  | nil => simp at h
  | cons p t =>
    rcases List.mem_cons.mp h with rfl | hm
    · exact le_foldl_max_init _ _
    · exact le_foldl_max_mem _ _ _ (List.mem_map.mpr ⟨pr, hm, rfl⟩)

lemma loDay_le_hiDay (ps : List (Ts × ℚ)) (h : ps ≠ []) : loDay ps ≤ hiDay ps := by
  cases ps with
  | nil => exact absurd rfl h
  | cons p t =>
    exact le_trans (loDay_le_day (p :: t) p (List.mem_cons_self p t))
      (day_le_hiDay (p :: t) p (List.mem_cons_self p t))

lemma dailyAgg_eq (ps : List (Ts × ℚ)) (h : ps ≠ []) :
    dailyAgg ps = (List.range (hiDay ps - loDay ps + 1).toNat).map
      (fun i : ℕ => (loDay ps + (i : ℤ), daySum ps (loDay ps + (i : ℤ)))) := by
  cases ps with
  | nil => exact absurd rfl h
  | cons p t => rfl

lemma daySum_eq_filter (ps : List (Ts × ℚ)) (d : ℤ) :
    daySum ps d = ((ps.filter (fun p => p.1.day = d)).map (fun p => p.2)).sum := by
  induction ps with
  | nil => rfl
  | cons p t ih =>
    by_cases hp : p.1.day = d
    · simp [daySum, List.filterMap_cons, List.filter_cons, hp] at ih ⊢
      rw [← ih]
    · simp [daySum, List.filterMap_cons, List.filter_cons, hp] at ih ⊢
      rw [← ih]

lemma dailyAgg_ne_nil (ps : List (Ts × ℚ)) (h : ps ≠ []) : dailyAgg ps ≠ [] := by
  rw [dailyAgg_eq ps h]
  have hle := loDay_le_hiDay ps h
  intro hc
  have hlen := congrArg List.length hc
  simp only [List.length_map, List.length_range, List.length_nil] at hlen
  omega

/-- **C2 (amended).** The Trend Analyzer's DailyAggregate has strictly
ascending days with no duplicates; each listed (day, sum) pair's sum equals
the sum of the value column over the valid (non-null date, non-null value)
rows falling on that day; every day present among the valid rows appears;
and — the amendment — the aggregate covers every calendar day of the closed
range from the earliest to the latest present day (pandas `resample("D")`
emits 0-sum bins for the absent days in between), not only the days
actually present. -/
theorem dailyAgg_spec (df : List Row) (dc vc : String) :
    List.Pairwise (fun a b : ℤ × ℚ => a.1 < b.1) (dailyAgg (validPairs df dc vc))
    ∧ (∀ d s, (d, s) ∈ dailyAgg (validPairs df dc vc) →
        s = (((validPairs df dc vc).filter (fun p => p.1.day = d)).map (fun p => p.2)).sum
        ∧ loDay (validPairs df dc vc) ≤ d ∧ d ≤ hiDay (validPairs df dc vc))
    ∧ (∀ pr ∈ validPairs df dc vc, ∃ s, (pr.1.day, s) ∈ dailyAgg (validPairs df dc vc))
    ∧ (validPairs df dc vc ≠ [] → ∀ d : ℤ, loDay (validPairs df dc vc) ≤ d →
        d ≤ hiDay (validPairs df dc vc) →
        (d, daySum (validPairs df dc vc) d) ∈ dailyAgg (validPairs df dc vc)) := by
  generalize validPairs df dc vc = ps
  by_cases h : ps = []
  · subst h
    refine ⟨by simp [dailyAgg], by simp [dailyAgg], by simp, fun hc => absurd rfl hc⟩
  · have hall : ∀ d : ℤ, loDay ps ≤ d → d ≤ hiDay ps →
        (d, daySum ps d) ∈ dailyAgg ps := by
      intro d hld hdh
      rw [dailyAgg_eq ps h]
      refine List.mem_map.mpr ⟨(d - loDay ps).toNat, List.mem_range.mpr (by omega), ?_⟩
      have hd : loDay ps + ((d - loDay ps).toNat : ℤ) = d := by omega
      rw [hd]
    refine ⟨?_, ?_, fun pr hpr => ⟨daySum ps pr.1.day,
      hall _ (loDay_le_day ps pr hpr) (day_le_hiDay ps pr hpr)⟩, fun _ => hall⟩
    · rw [dailyAgg_eq ps h]
      exact List.Pairwise.map _ (fun a b hab => by omega)
        (List.pairwise_lt_range _)
    · intro d s hds
      rw [dailyAgg_eq ps h] at hds
      obtain ⟨i, hi, hfi⟩ := List.mem_map.mp hds
      rw [Prod.mk.injEq] at hfi
      obtain ⟨hd, hs⟩ := hfi
      subst hd
      subst hs
      rw [List.mem_range] at hi
      refine ⟨daySum_eq_filter ps _, by omega, ?_⟩
      have hn := loDay_le_hiDay ps h
      omega

/-- C2 counterexample to the claim as stated: on a dataset whose valid
rows fall on days 0 and 2 only, the aggregate contains a pair for day 1,
a day present in no row — refuting "no pairs for absent days" and "exactly
one pair per calendar day actually present". -/
theorem dailyAgg_gap :
    ((1 : ℤ), (0 : ℚ)) ∈ dailyAgg (validPairs ex2df "ExitTime" "GrossQuantity")
    ∧ (∀ r ∈ ex2df, ∀ t : Ts, r.exitTime = some t → t.day ≠ 1) := by
  constructor <;> decide

/-- C2 witness: on the concrete dataset, day 0 (present) appears, and the
range conjunct applies to day 2. -/
theorem dailyAgg_spec_witness :
    (∃ s, ((0 : ℤ), s) ∈ dailyAgg (validPairs ex2df "ExitTime" "GrossQuantity"))
    ∧ ((2 : ℤ), daySum (validPairs ex2df "ExitTime" "GrossQuantity") 2) ∈
        dailyAgg (validPairs ex2df "ExitTime" "GrossQuantity") :=
  ⟨(dailyAgg_spec ex2df "ExitTime" "GrossQuantity").2.2.1 (⟨⟨0,0⟩, 10⟩) (by decide),
   (dailyAgg_spec ex2df "ExitTime" "GrossQuantity").2.2.2 (by decide) 2 (by decide) (by decide)⟩

lemma runUploads_isSome_of_isSome (l : List (Except String (List Row)))
    (st : Option (List Row)) (h : st.isSome) : (runUploads st l).isSome := by
  induction l generalizing st with
  | nil => exact h
  | cons e t ih =>
    cases e with
    | ok df => exact ih (some df) rfl
    | error m => exact ih st h

lemma runUploads_isSome_of_success (l : List (Except String (List Row)))
    (st : Option (List Row)) (h : ∃ df, Except.ok df ∈ l) : (runUploads st l).isSome := by
  induction l generalizing st with
  | nil => obtain ⟨df, hm⟩ := h; simp at hm
  | cons e t ih =>
    obtain ⟨df, hm⟩ := h
    rcases List.mem_cons.mp hm with rfl | hm2
    · exact runUploads_isSome_of_isSome t (some df) rfl
    · cases e with
      | ok df2 => exact runUploads_isSome_of_isSome t (some df2) rfl
      | error m => exact ih st ⟨df, hm2⟩

lemma runUploads_none_of_no_success (l : List (Except String (List Row)))
    (h : ∀ df, Except.ok df ∉ l) : runUploads none l = none := by
  induction l with
  | nil => rfl
  | cons e t ih =>
    cases e with
    | ok df => exact absurd (List.mem_cons_self _ _) (h df)
    | error m =>
      exact ih (fun df hm => h df (List.mem_cons_of_mem _ hm))

lemma ask_some_ne_noDataset (env : Env) (df : List Row) (q : String) (p : Option ℤ) :
    ask env (some df) q p ≠ Except.error AskError.noDataset := by
  simp only [ask]
  split
  · simp
  · split
    · simp
    · split
      · simp
      · split
        · split
          · simp
          · simp
        · simp

/-- **C3.** The forecaster is (by construction of the embedding) a total
function — no outcome of the abstracted Prophet pipeline escapes as an
exception — and: with zero valid (non-null ExitTime, non-null
GrossQuantity) rows it returns the text "No data available for
forecasting" with no image; with a nonempty daily series, a pipeline
failure `e` is caught and returned as text "Forecasting failed: e" with no
image, and a pipeline success yields the textual summary plus the chart
reference.  A single-valid-day dataset falls under the last two cases, so
it always produces a normal result. -/
theorem forecaster_branches (run : List (ℤ × ℚ) → ℤ → Except String ProphetOutput)
    (df : List Row) (p : ℤ) :
    (validPairs df "ExitTime" "GrossQuantity" = [] →
      forecast_gross_quantity run df p = ⟨"No data available for forecasting", none⟩)
    ∧ (validPairs df "ExitTime" "GrossQuantity" ≠ [] →
        ∀ e, run (dailyAgg (validPairs df "ExitTime" "GrossQuantity")) p = .error e →
          forecast_gross_quantity run df p = ⟨"Forecasting failed: " ++ e, none⟩)
    ∧ (validPairs df "ExitTime" "GrossQuantity" ≠ [] →
        ∀ out, run (dailyAgg (validPairs df "ExitTime" "GrossQuantity")) p = .ok out →
          forecast_gross_quantity run df p =
            ⟨summaryText out.rows (histMaxOf (dailyAgg (validPairs df "ExitTime" "GrossQuantity"))),
              some out.url⟩) := by
  refine ⟨?_, ?_, ?_⟩
  · intro h
    simp [forecast_gross_quantity, h, dailyAgg]
  · intro h e he
    have hne := dailyAgg_ne_nil _ h
    simp [forecast_gross_quantity, List.isEmpty_iff, hne, he]
  · intro h out hout
    have hne := dailyAgg_ne_nil _ h
    simp [forecast_gross_quantity, List.isEmpty_iff, hne, hout]

/-- C3 witness: a single-valid-day dataset whose model fit fails (as
Prophet's does on fewer than 2 rows) still yields a normal, text-only
result. -/
theorem forecaster_branches_witness :
    forecast_gross_quantity (fun _ _ => .error "model blew up") [exRow1] 14 =
      ⟨"Forecasting failed: model blew up", none⟩ :=
  (forecaster_branches (fun _ _ => .error "model blew up") [exRow1] 14).2.1
    (by decide) "model blew up" rfl

lemma tail7_den (vals : List ℚ) :
    mean (vals.drop (vals.length - 7)) =
      (vals.drop (vals.length - min 7 vals.length)).sum / ((min 7 vals.length : ℕ) : ℚ) := by
  have h1 : vals.length - min 7 vals.length = vals.length - 7 := by omega
  have h2 : (vals.drop (vals.length - 7)).length = min 7 vals.length := by
    rw [List.length_drop]
    omega
  rw [mean, h1, h2]

lemma take7_den (vals : List ℚ) :
    mean (vals.take 7) = (vals.take (min 7 vals.length)).sum / ((min 7 vals.length : ℕ) : ℚ) := by
  have h1 : vals.take (min 7 vals.length) = vals.take 7 := by
    rw [List.take_eq_take]
    omega
  have h2 : (vals.take 7).length = min 7 vals.length := by rw [List.length_take]
  rw [mean, h1, h2]

/-- **C6.** The forecast summary's means agree with the spec's
description (mean over the last up-to-7 historical days / first up-to-7
forecast days of the chronological predicted series), the direction is
"increase" exactly when nextFcMean > lastHistMean and "decrease"
otherwise (equality included, since the source tests strict `>`), and the
percent change is (nextFcMean − lastHistMean) / max(|lastHistMean|, 1e-6)
× 100 rendered with one decimal. -/
theorem forecast_summary_spec (rows : List (ℤ × ℚ)) (hMax : ℤ) :
    lastHistMean rows hMax = spec_lastHistMean rows hMax
    ∧ nextFcMean rows hMax = spec_nextFcMean rows hMax
    ∧ summaryText rows hMax =
        "Forecast suggests a " ++
          (if spec_nextFcMean rows hMax > spec_lastHistMean rows hMax then "increase"
           else "decrease") ++
          " of approximately " ++
          format1 ((spec_nextFcMean rows hMax - spec_lastHistMean rows hMax) /
            max |spec_lastHistMean rows hMax| (1/1000000) * 100) ++
          "% over the next period." := by
  have h1 : lastHistMean rows hMax = spec_lastHistMean rows hMax := by
    simp only [lastHistMean, spec_lastHistMean]
    exact tail7_den _
  have h2 : nextFcMean rows hMax = spec_nextFcMean rows hMax := by
    simp only [nextFcMean, spec_nextFcMean]
    exact take7_den _
  exact ⟨h1, h2, by simp only [summaryText, h1, h2]⟩

/-- **C9.** `ask` with no dataset loaded — including after any sequence
of exclusively failed uploads — fails with `noDataset`; after at least one
successful upload (wherever it sits in the upload history) `ask` never
fails with `noDataset`, for every question and horizon. -/
theorem ask_no_dataset :
    (∀ env q p, ask env none q p = Except.error AskError.noDataset)
    ∧ (∀ l, (∀ df, Except.ok df ∉ l) →
        ∀ env q p, ask env (runUploads none l) q p = Except.error AskError.noDataset)
    ∧ (∀ l st, (∃ df, Except.ok df ∈ l) →
        ∀ env q p, ask env (runUploads st l) q p ≠ Except.error AskError.noDataset) := by
  refine ⟨fun env q p => rfl, ?_, ?_⟩
  · intro l h env q p
    rw [runUploads_none_of_no_success l h]
    rfl
  · intro l st h env q p
    obtain ⟨df, hdf⟩ := Option.isSome_iff_exists.mp (runUploads_isSome_of_success l st h)
    rw [hdf]
    exact ask_some_ne_noDataset env df q p

/-- C9 witness: a failed upload alone leaves `noDataset`; a later
successful upload clears it. -/
theorem ask_no_dataset_witness :
    (ask envStub (runUploads none [Except.error "bad csv"]) "hello" none =
      Except.error AskError.noDataset)
    ∧ ask envStub (runUploads none [Except.error "bad csv", Except.ok ex2df]) "hello" none ≠
        Except.error AskError.noDataset :=
  ⟨ask_no_dataset.2.1 [Except.error "bad csv"] (fun df hm => by simp at hm) envStub "hello" none,
   ask_no_dataset.2.2 [Except.error "bad csv", Except.ok ex2df] none
     ⟨ex2df, by simp⟩ envStub "hello" none⟩

/-- **C10.** Every trend-intent question is dispatched to
`trend_chart` with the fixed defaults GrossQuantity/ExitTime — the
question text never influences the charted columns — and in particular
"plot the FlowRate by day" has trend intent (and hence, by the first
part, still charts GrossQuantity). -/
theorem trend_intent_fixed_columns :
    (∀ env df q p, classify_query_intent q = "trend" →
      ask env (some df) q p = .ok (trend_chart df "GrossQuantity" "ExitTime"))
    ∧ classify_query_intent "plot the FlowRate by day" = "trend" := by
  constructor
  · intro env df q p h
    simp [ask, h]
  · decide

/-- C10 witness: the FlowRate-mentioning question charts
GrossQuantity. -/
theorem trend_intent_fixed_columns_witness :
    ask envStub (some ex2df) "plot the FlowRate by day" none =
      .ok (trend_chart ex2df "GrossQuantity" "ExitTime") :=
  trend_intent_fixed_columns.1 envStub ex2df "plot the FlowRate by day" none (by decide)

end AIDash
